import Mathlib

/-!
# politeiad/backend: errors, status codes and the storage record

A shallow embedding of `politeiad/backend/backend.go`: the three sentinel
errors, `ContentVerificationError`, the `PSRStatusT` codes with the `PSRStatus`
name table, and `ProposalStorageRecord`.  The `Backend` interface has no
implementation in the file; the two methods that are reasoned about are
modelled from the written specification and marked as such.
-/

set_option autoImplicit false

namespace backend

/-! ## Go values used by the package -/

/-- A Go `byte`. -/
abbrev Byte := Fin 256

/-- Run-time panics: a method call on the nil interface, a value method called
through a nil pointer, `==` on two values of one uncomparable dynamic type,
and any other panic raised inside code outside this package. -/
inductive GoPanic where
  | nilDereference
  | valueMethodNilPointer
  | uncomparable
  | raised (v : String)
  deriving DecidableEq, Repr

/-- What a Go call does: it returns a value, it panics, or it never returns. -/
inductive Outcome (α : Type) where
  | returns (v : α)
  | panics (p : GoPanic)
  | diverges
  deriving DecidableEq, Repr

/-- A value of the Go interface type `error`.  The interface is open, so beside
the nil interface, the pointer returned by `errors.New` (identified by its
address `ptr`, carrying the text `s`) and a `ContentVerificationError` struct
value holding its `Err` field, there is `other`: a value of any other dynamic
type, given by a number for the type, whether that type is comparable, a number
for the value, and what its own `Error()` method does when called.  Pointers to
`ContentVerificationError` are among the `other` values. -/
inductive GoError where
  | nil : GoError
  | errorString (ptr : Nat) (s : String) : GoError
  | contentVerification (Err : GoError) : GoError
  | other (typ : Nat) (comparable : Bool) (val : Nat) (err : Outcome String) : GoError
  deriving DecidableEq, Repr

/-- Library call `errors.New(text)`: allocates a fresh `*errorString` at the
next free address `next` and returns it with the advanced allocation counter.
Every call yields a distinct pointer, also for identical text. -/
def errorsNew (next : Nat) (text : String) : GoError × Nat :=
  (GoError.errorString next text, next + 1)

/-- Go `==` on two `error` interface values: equal when both are nil, or when
the dynamic types agree and the dynamic values are equal (pointer identity for
`*errorString`, field-wise for the `ContentVerificationError` struct).  Values
of different dynamic types compare unequal; two values of one uncomparable
dynamic type make the comparison panic. -/
def GoError.goEq : GoError → GoError → Outcome Bool
  | GoError.nil, GoError.nil => Outcome.returns true
  | GoError.errorString p _, GoError.errorString q _ => Outcome.returns (p == q)
  | GoError.contentVerification a, GoError.contentVerification b => GoError.goEq a b
  | GoError.other t c v _, GoError.other u _ w _ =>
    if t = u then
      (if c then Outcome.returns (v == w) else Outcome.panics GoPanic.uncomparable)
    else Outcome.returns false
  | _, _ => Outcome.returns false

/-- Method call `e.Error()` on an interface value.  On the nil interface the
call dereferences nil; on an `errors.New` value it returns the stored text; on
a `ContentVerificationError` it runs that method body, `return c.Err.Error()`;
on a value of another dynamic type it does what that type's method does. -/
def GoError.Error : GoError → Outcome String
  | GoError.nil => Outcome.panics GoPanic.nilDereference
  | GoError.errorString _ s => Outcome.returns s
  | GoError.contentVerification e => GoError.Error e
  | GoError.other _ _ _ r => r

/-- The error reached by following `Err` fields through nested
`ContentVerificationError` values until a value of another kind is met. -/
def GoError.innermost : GoError → GoError
  | GoError.contentVerification e => GoError.innermost e
  | e => e

/-! ## Package-level error variables (backend.go lines 12-23)

The `var` block is initialised in source order, each `errors.New` taking the
next address. -/

/-- Initialisation of `ErrProposalNotFound`. -/
def initErrProposalNotFound : GoError × Nat := errorsNew 0 "proposal not found"

/-- ErrProposalNotFound is emitted when a proposal could not be found. -/
def ErrProposalNotFound : GoError := initErrProposalNotFound.1

/-- Initialisation of `ErrShutdown`. -/
def initErrShutdown : GoError × Nat :=
  errorsNew initErrProposalNotFound.2 "backend is shutting down"

/-- ErrShutdown is emitted when the backend is shutting down. -/
def ErrShutdown : GoError := initErrShutdown.1

/-- Initialisation of `ErrInvalidTransition`. -/
def initErrInvalidTransition : GoError × Nat :=
  errorsNew initErrShutdown.2 "invalid proposal status transition"

/-- ErrInvalidTransition is emitted when an invalid status transition occurs. -/
def ErrInvalidTransition : GoError := initErrInvalidTransition.1

/-! ## ContentVerificationError (backend.go lines 25-33) -/

/-- ContentVerificationError is returned when a submitted proposal contains
unacceptable file formats or corrupt data. -/
structure ContentVerificationError where
  Err : GoError
  deriving DecidableEq, Repr

/-- Source: `func (c ContentVerificationError) Error() string { return c.Err.Error() }`.
The receiver is passed by value and is not written to. -/
def ContentVerificationError.Error (c : ContentVerificationError) : Outcome String :=
  c.Err.Error

/-- A `ContentVerificationError` struct value stored in an `error` interface. -/
def ContentVerificationError.toError (c : ContentVerificationError) : GoError :=
  GoError.contentVerification c.Err

/-- The nil pointer of type `*ContentVerificationError` stored in an `error`
interface: a non-nil interface value of another dynamic type (number 0 here),
on which the value method `Error` cannot be called. -/
def nilContentVerificationErrorPtr : GoError :=
  GoError.other 0 true 0 (Outcome.panics GoPanic.valueMethodNilPointer)

/-! ## File, status codes, storage record (backend.go lines 35-68) -/

/-- Source struct `File`. -/
structure File where
  Name : String
  MIME : String
  Digest : String
  Payload : String
  deriving DecidableEq, Repr

/-- Source: `type PSRStatusT int`. -/
abbrev PSRStatusT := Int

/-- Source constant `PSRStatusInvalid`. -/
def PSRStatusInvalid : PSRStatusT := 0

/-- Source constant `PSRStatusUnvetted`. -/
def PSRStatusUnvetted : PSRStatusT := 1

/-- Source constant `PSRStatusVetted`. -/
def PSRStatusVetted : PSRStatusT := 2

/-- Source constant `PSRStatusCensored`. -/
def PSRStatusCensored : PSRStatusT := 3

/-- PSRStatus converts a status code to a human readable error: the entries of
the map literal, in source order. -/
def PSRStatus : List (PSRStatusT × String) :=
  [ (PSRStatusInvalid, "invalid"),
    (PSRStatusUnvetted, "unvetted"),
    (PSRStatusVetted, "vetted"),
    (PSRStatusCensored, "censored") ]

/-- Go two-result map read `v, ok := m[k]`: `some v` when the key is present. -/
def mapLookup : List (PSRStatusT × String) → PSRStatusT → Option String
  | [], _ => none
  | (k, v) :: rest, key => if k = key then some v else mapLookup rest key

/-- Go one-result map read `m[k]`: the zero value `""` when the key is absent. -/
def mapIndex (m : List (PSRStatusT × String)) (key : PSRStatusT) : String :=
  (mapLookup m key).getD ""

/-- Library constant `sha256.Size`. -/
def sha256Size : Nat := 32

/-- Go array type `[sha256.Size]byte`. -/
abbrev MerkleRoot := { l : List Byte // l.length = sha256Size }

/-- Source struct `ProposalStorageRecord`.  `Version` is a Go `uint`; `Token`
is a byte slice, whose nil value is modelled as the empty list. -/
structure ProposalStorageRecord where
  Version : Nat
  Status : PSRStatusT
  Merkle : MerkleRoot
  Name : String
  Token : List Byte
  deriving DecidableEq, Repr

/-- The Go zero value of `ProposalStorageRecord` (`var r ProposalStorageRecord`
or `ProposalStorageRecord{}`): every field holds the zero value of its type. -/
def ProposalStorageRecord.zeroValue : ProposalStorageRecord :=
  { Version := 0
    Status := 0
    Merkle := ⟨List.replicate sha256Size 0, List.length_replicate _ _⟩
    Name := ""
    Token := [] }

/-! ## The Backend interface (backend.go lines 70-85)

The source declares the interface only.  The state and the operations below are
written from the specification text (sections 4.1 to 4.4 and 8). -/

/-- Modelled from the spec: the external collaborators of section 6, which the
source file does not contain: payload decoding, the hex digest of decoded bytes,
the accepted MIME types, the bytes of a hex digest, the fixed-size hash, and
the token generator of the creation path. -/
structure Collaborators where
  decodePayload : String → Except GoError (List Byte)
  digestOf : List Byte → String
  mimeAllowed : String → Bool
  digestBytes : String → List Byte
  hash : List Byte → MerkleRoot
  newToken : List (List Byte) → List Byte

/-- Modelled from the spec: one stored proposal, the record together with its
file set (section 3, ownership). -/
structure Stored where
  Files : List File
  Record : ProposalStorageRecord
  deriving DecidableEq, Repr

/-- Modelled from the spec: the state behind the `Backend` interface, which has
no implementation in the source: the stored proposals and whether `Close` has
begun (sections 4.4 and 5). -/
structure Backend where
  store : List Stored
  shutdown : Bool
  deriving DecidableEq, Repr

/-- Modelled from the spec: cause reported when a declared digest differs from
the digest of the decoded payload (section 4.3); the source names no such value. -/
def errDigestMismatch : GoError := (errorsNew initErrInvalidTransition.2 "digest mismatch").1

/-- Modelled from the spec: cause reported for a disallowed MIME type
(section 4.3); the source names no such value. -/
def errDisallowedMIME : GoError :=
  (errorsNew (initErrInvalidTransition.2 + 1) "disallowed MIME type").1

/-- Modelled from the spec: the per-file check of `VerifyContent` (section 4.3),
absent from the source: decode the payload, recompute its digest, compare with
the declared digest, and check the MIME type.  Returns the cause on failure. -/
def verifyFile (x : Collaborators) (f : File) : Option GoError :=
  match x.decodePayload f.Payload with
  | Except.error cause => some cause
  | Except.ok bytes =>
    if x.digestOf bytes ≠ f.Digest then some errDigestMismatch
    else if x.mimeAllowed f.MIME = false then some errDisallowedMIME
    else none

/-- Modelled from the spec: `VerifyContent(files)` (section 4.3), absent from
the source: the first failing file decides; `none` means the content is accepted. -/
def VerifyContent (x : Collaborators) : List File → Option GoError
  | [] => none
  | f :: rest =>
    match verifyFile x f with
    | some cause => some cause
    | none => VerifyContent x rest

/-- Modelled from the spec: the ordered concatenation of the digest bytes of
the files (section 4.1), absent from the source. -/
def concatDigests (x : Collaborators) : List File → List Byte
  | [] => []
  | f :: rest => x.digestBytes f.Digest ++ concatDigests x rest

/-- Modelled from the spec: `ComputeMerkle(files)` (section 4.1), absent from
the source: hash the concatenation of the file digests once. -/
def ComputeMerkle (x : Collaborators) (files : List File) : MerkleRoot :=
  x.hash (concatDigests x files)

/-- Modelled from the spec: the first stored proposal carrying the token. -/
def findRecord (token : List Byte) : List Stored → Option Stored
  | [] => none
  | e :: rest => if e.Record.Token = token then some e else findRecord token rest

/-- Modelled from the spec: the store with the status of the proposal carrying
the token replaced by `n`; all other proposals are kept as they are. -/
def setStatus (token : List Byte) (n : PSRStatusT) : List Stored → List Stored
  | [] => []
  | e :: rest =>
    if e.Record.Token = token then
      { e with Record := { e.Record with Status := n } } :: rest
    else e :: setStatus token n rest

/-- Modelled from the spec: `Backend.New(name, files)` (section 4.4), whose
implementation is absent from the source.  After `Close` it fails with the
shutdown error for any input; otherwise it verifies the content, computes the
merkle root, assigns a new token and creates the record with version 1 and
status unvetted. -/
def Backend.New (x : Collaborators) (b : Backend) (name : String) (files : List File) :
    Backend × Except GoError ProposalStorageRecord :=
  if b.shutdown then (b, Except.error ErrShutdown)
  else
    match VerifyContent x files with
    | some cause =>
      (b, Except.error (ContentVerificationError.toError { Err := cause }))
    | none =>
      let psr : ProposalStorageRecord :=
        { Version := 1
          Status := PSRStatusUnvetted
          Merkle := ComputeMerkle x files
          Name := name
          Token := x.newToken (b.store.map (fun e => e.Record.Token)) }
      ({ b with store := b.store ++ [{ Files := files, Record := psr }] }, Except.ok psr)

/-- Modelled from the spec: `Backend.SetUnvettedStatus(token, newStatus)`
(sections 4.2, 4.4 and 8), whose implementation is absent from the source.
After `Close` it fails with the shutdown error for any input; an unknown token
gives not-found; the status moves only from unvetted to vetted or censored, and
every other request gives invalid-transition and leaves the state as it was. -/
def Backend.SetUnvettedStatus (b : Backend) (token : List Byte) (n : PSRStatusT) :
    Backend × Except GoError PSRStatusT :=
  if b.shutdown then (b, Except.error ErrShutdown)
  else
    match findRecord token b.store with
    | none => (b, Except.error ErrProposalNotFound)
    | some e =>
      if e.Record.Status = PSRStatusUnvetted ∧ (n = PSRStatusVetted ∨ n = PSRStatusCensored) then
        ({ b with store := setStatus token n b.store }, Except.ok n)
      else (b, Except.error ErrInvalidTransition)

/-- Modelled from the spec: `Backend.Close()` (section 4.4), whose
implementation is absent from the source: from this point the mutating
operations fail with the shutdown error. -/
def Backend.Close (b : Backend) : Backend :=
  { b with shutdown := true }

/-! ## Concrete values used in the examples -/

/-- A collaborator set for examples: payloads decode to no bytes, every digest
is the text "d", every MIME type is accepted, the hash is the all-zero array. -/
def sampleCollaborators : Collaborators :=
  { decodePayload := fun _ => Except.ok []
    digestOf := fun _ => "d"
    mimeAllowed := fun _ => true
    digestBytes := fun _ => []
    hash := fun _ => ⟨List.replicate sha256Size 0, List.length_replicate _ _⟩
    newToken := fun used => List.replicate (used.length + 1) 7 }

/-- A one-file proposal whose declared digest matches. -/
def sampleFiles : List File :=
  [{ Name := "index.md", MIME := "text/plain", Digest := "d", Payload := "" }]

/-- An unvetted record with token `[7]`. -/
def sampleRecord : ProposalStorageRecord :=
  { Version := 1
    Status := PSRStatusUnvetted
    Merkle := ⟨List.replicate sha256Size 0, List.length_replicate _ _⟩
    Name := "a"
    Token := [7] }

/-- A running backend holding the sample proposal. -/
def sampleBackend : Backend :=
  { store := [{ Files := sampleFiles, Record := sampleRecord }], shutdown := false }

/-! ## Helper lemmas -/

theorem Error_eq_innermost (e : GoError) : e.Error = e.innermost.Error := by
  induction e with
  | nil => rfl
  | errorString p s => rfl
  | contentVerification e ih => simpa [GoError.Error, GoError.innermost] using ih
  | other t c v r => rfl

theorem innermost_not_wrapped (e d : GoError) :
    e.innermost ≠ GoError.contentVerification d := by
  induction e with
  | nil => simp [GoError.innermost]
  | errorString p s => simp [GoError.innermost]
  | contentVerification e ih => simpa [GoError.innermost] using ih
  | other t c v r => simp [GoError.innermost]

theorem Error_returns_iff (e : GoError) :
    (∃ s, e.Error = Outcome.returns s) ↔
      ((∃ p s, e.innermost = GoError.errorString p s) ∨
        (∃ t c v s, e.innermost = GoError.other t c v (Outcome.returns s))) := by
  rw [Error_eq_innermost e]
  cases h : e.innermost with
  | nil => simp [GoError.Error]
  | errorString p s => simp [GoError.Error]
  | contentVerification d => exact absurd h (innermost_not_wrapped e d)
  | other t c v r =>
    cases r with
    | returns s => simp [GoError.Error]
    | panics q => simp [GoError.Error]
    | diverges => simp [GoError.Error]

theorem Error_of_innermost_nil (e : GoError) (h : e.innermost = GoError.nil) :
    e.Error = Outcome.panics GoPanic.nilDereference := by
  rw [Error_eq_innermost e, h]
  rfl

theorem mapLookup_isSome_iff (s : PSRStatusT) :
    (mapLookup PSRStatus s).isSome = true ↔
      (s = PSRStatusInvalid ∨ s = PSRStatusUnvetted ∨ s = PSRStatusVetted ∨
        s = PSRStatusCensored) := by
  simp only [PSRStatus, mapLookup, PSRStatusInvalid, PSRStatusUnvetted, PSRStatusVetted,
    PSRStatusCensored]
  constructor
  · intro h
    by_cases h0 : (0 : Int) = s
    · exact Or.inl h0.symm
    by_cases h1 : (1 : Int) = s
    · exact Or.inr (Or.inl h1.symm)
    by_cases h2 : (2 : Int) = s
    · exact Or.inr (Or.inr (Or.inl h2.symm))
    by_cases h3 : (3 : Int) = s
    · exact Or.inr (Or.inr (Or.inr h3.symm))
    simp [h0, h1, h2, h3] at h
  · rintro (h | h | h | h) <;> subst h <;> decide

theorem findRecord_setStatus (token : List Byte) (n : PSRStatusT) (l : List Stored) :
    findRecord token (setStatus token n l) =
      (findRecord token l).map (fun e => { e with Record := { e.Record with Status := n } }) := by
  induction l with
  | nil => rfl
  | cons e rest ih =>
    by_cases h : e.Record.Token = token
    · simp [findRecord, setStatus, h]
    · simp [findRecord, setStatus, h, ih]

theorem findRecord_setStatus_other (token other : List Byte) (n : PSRStatusT)
    (l : List Stored) (hne : other ≠ token) :
    findRecord other (setStatus token n l) = findRecord other l := by
  induction l with
  | nil => rfl
  | cons e rest ih =>
    by_cases h : e.Record.Token = token
    · have h2 : e.Record.Token ≠ other := fun h3 => hne (h3.symm.trans h)
      simp [findRecord, setStatus, h, h2, hne.symm]
    · simp only [setStatus, h, if_false, findRecord, ih]

/-! ## Status codes and the name table -/

/-- C1: the four status constants have the codes 0, 1, 2, 3; the `PSRStatus`
table consists of exactly the four pairs with the names "invalid", "unvetted",
"vetted", "censored"; and reading the table at each constant, with either form
of the Go map read, gives that name. -/
theorem status_codes_and_names :
    PSRStatusInvalid = 0 ∧ PSRStatusUnvetted = 1 ∧ PSRStatusVetted = 2 ∧
    PSRStatusCensored = 3 ∧
    PSRStatus = [(0, "invalid"), (1, "unvetted"), (2, "vetted"), (3, "censored")] ∧
    mapLookup PSRStatus PSRStatusInvalid = some "invalid" ∧
    mapLookup PSRStatus PSRStatusUnvetted = some "unvetted" ∧
    mapLookup PSRStatus PSRStatusVetted = some "vetted" ∧
    mapLookup PSRStatus PSRStatusCensored = some "censored" ∧
    mapIndex PSRStatus PSRStatusInvalid = "invalid" ∧
    mapIndex PSRStatus PSRStatusUnvetted = "unvetted" ∧
    mapIndex PSRStatus PSRStatusVetted = "vetted" ∧
    mapIndex PSRStatus PSRStatusCensored = "censored" := by
  refine ⟨rfl, rfl, rfl, rfl, rfl, ?_, ?_, ?_, ?_, ?_, ?_, ?_, ?_⟩ <;> decide

/-- C6 as stated fails: `PSRStatusT` is the Go type `int`, so the value 4 is a
`PSRStatusT` that is none of the four constants, and it has no entry in
`PSRStatus` (the one-result read gives the empty string). -/
theorem status_type_is_open :
    (4 : PSRStatusT) ≠ PSRStatusInvalid ∧ (4 : PSRStatusT) ≠ PSRStatusUnvetted ∧
    (4 : PSRStatusT) ≠ PSRStatusVetted ∧ (4 : PSRStatusT) ≠ PSRStatusCensored ∧
    mapLookup PSRStatus 4 = none ∧ mapIndex PSRStatus 4 = "" := by
  refine ⟨?_, ?_, ?_, ?_, ?_, ?_⟩ <;> decide

/-- C6 amended: a `PSRStatusT` value has a display name in `PSRStatus` exactly
when it is one of the four defined codes; each of the four has one, and a value
outside them reads as the empty string. -/
theorem status_named_iff_defined (s : PSRStatusT) :
    ((mapLookup PSRStatus s).isSome = true ↔
      (s = PSRStatusInvalid ∨ s = PSRStatusUnvetted ∨ s = PSRStatusVetted ∨
        s = PSRStatusCensored)) ∧
    ((mapLookup PSRStatus s).isSome = false ↔ mapIndex PSRStatus s = "") := by
  refine ⟨mapLookup_isSome_iff s, ?_⟩
  constructor
  · intro h
    cases hl : mapLookup PSRStatus s with
    | none => simp [mapIndex, hl]
    | some v => simp [hl] at h
  · intro h
    cases hl : mapLookup PSRStatus s with
    | none => rfl
    | some v =>
      exfalso
      have hs := (mapLookup_isSome_iff s).1 (by simp [hl])
      rcases hs with hs | hs | hs | hs <;> subst hs <;> revert h <;> decide

/-- C8: on the four defined codes the name read `PSRStatus[a]` is injective,
and the table has exactly four entries with pairwise different keys. -/
theorem status_name_injective (a b : PSRStatusT)
    (ha : a ∈ PSRStatus.map Prod.fst) (hb : b ∈ PSRStatus.map Prod.fst)
    (h : mapIndex PSRStatus a = mapIndex PSRStatus b) :
    a = b ∧ PSRStatus.length = 4 ∧ (PSRStatus.map Prod.fst).Nodup := by
  refine ⟨?_, rfl, by decide⟩
  simp only [PSRStatus, PSRStatusInvalid, PSRStatusUnvetted, PSRStatusVetted,
    PSRStatusCensored, List.map, List.mem_cons, List.mem_singleton, List.not_mem_nil,
    or_false] at ha hb
  rcases ha with ha | ha | ha | ha <;> rcases hb with hb | hb | hb | hb <;>
    subst ha <;> subst hb <;> first | rfl | (exfalso; revert h; decide)

/-- C8 witness: "vetted" read at code 2 twice. -/
theorem status_name_injective_witness :
    mapIndex PSRStatus PSRStatusVetted = mapIndex PSRStatus 2 ∧
    (PSRStatusVetted = 2 ∧ PSRStatus.length = 4 ∧ (PSRStatus.map Prod.fst).Nodup) :=
  ⟨by decide, status_name_injective PSRStatusVetted 2 (by decide) (by decide) (by decide)⟩

/-! ## The storage record -/

/-- C7: the `Merkle` field of every `ProposalStorageRecord` holds exactly
`sha256.Size` = 32 bytes; in particular it is never empty. -/
theorem merkle_fixed_size (r : ProposalStorageRecord) :
    r.Merkle.val.length = sha256Size ∧ sha256Size = 32 ∧ r.Merkle.val ≠ [] := by
  refine ⟨r.Merkle.property, rfl, ?_⟩
  intro h
  have hl := r.Merkle.property
  rw [h] at hl
  exact absurd hl (by decide)

/-- C10: the zero value of `ProposalStorageRecord` has status `PSRStatusInvalid`
(code 0, name "invalid") and version 0, and its status is none of unvetted,
vetted, censored. -/
theorem zero_record_is_invalid :
    ProposalStorageRecord.zeroValue.Status = PSRStatusInvalid ∧
    ProposalStorageRecord.zeroValue.Status = 0 ∧
    mapIndex PSRStatus ProposalStorageRecord.zeroValue.Status = "invalid" ∧
    ProposalStorageRecord.zeroValue.Version = 0 ∧
    ProposalStorageRecord.zeroValue.Status ≠ PSRStatusUnvetted ∧
    ProposalStorageRecord.zeroValue.Status ≠ PSRStatusVetted ∧
    ProposalStorageRecord.zeroValue.Status ≠ PSRStatusCensored := by
  refine ⟨rfl, rfl, ?_, rfl, ?_, ?_, ?_⟩ <;> decide

/-! ## Errors -/

/-- C3 as stated fails: for the value
`ContentVerificationError{Err: ContentVerificationError{}}` the field `Err` is
non-nil, yet neither `Error()` nor `Err.Error()` returns any string. -/
theorem wrapped_zero_value_returns_no_string :
    ({ Err := ContentVerificationError.toError { Err := GoError.nil } } :
        ContentVerificationError).Err ≠ GoError.nil ∧
    (∀ s : String,
      ({ Err := ContentVerificationError.toError { Err := GoError.nil } } :
          ContentVerificationError).Error ≠ Outcome.returns s) ∧
    (∀ s : String,
      (ContentVerificationError.toError { Err := GoError.nil }).Error ≠ Outcome.returns s) := by
  refine ⟨by decide, ?_, ?_⟩ <;> intro s h <;> cases h

/-- C3 amended: a `ContentVerificationError` built around a cause `e` keeps `e`
in its `Err` field, and its `Error()` does exactly what `e.Error()` does, both
when called on the struct and when called through the `error` interface: it
returns a string exactly when `e.Error()` returns that string, with nothing
added or removed, it panics exactly when `e.Error()` panics, with the same
panic, and it does not return exactly when `e.Error()` does not; for a cause
made by `errors.New` it returns the text of the cause. -/
theorem content_verification_error_wraps (e : GoError) :
    ({ Err := e } : ContentVerificationError).Err = e ∧
    ({ Err := e } : ContentVerificationError).Error = e.Error ∧
    (ContentVerificationError.toError { Err := e }).Error = e.Error ∧
    (∀ s, ({ Err := e } : ContentVerificationError).Error = Outcome.returns s ↔
      e.Error = Outcome.returns s) ∧
    (∀ q, ({ Err := e } : ContentVerificationError).Error = Outcome.panics q ↔
      e.Error = Outcome.panics q) ∧
    (({ Err := e } : ContentVerificationError).Error = Outcome.diverges ↔
      e.Error = Outcome.diverges) ∧
    (∀ p s, e = GoError.errorString p s →
      ({ Err := e } : ContentVerificationError).Error = Outcome.returns s) := by
  refine ⟨rfl, rfl, rfl, fun _ => Iff.rfl, fun _ => Iff.rfl, Iff.rfl, ?_⟩
  intro p s h
  subst h
  rfl

/-- C3 witness: wrapping `ErrShutdown` returns its message unchanged. -/
theorem content_verification_error_wraps_witness :
    ErrShutdown = GoError.errorString 1 "backend is shutting down" ∧
    ({ Err := ErrShutdown } : ContentVerificationError).Err = ErrShutdown ∧
    ({ Err := ErrShutdown } : ContentVerificationError).Error =
      Outcome.returns "backend is shutting down" :=
  ⟨rfl, (content_verification_error_wraps ErrShutdown).1,
    (content_verification_error_wraps ErrShutdown).2.2.2.2.2.2 1
      "backend is shutting down" rfl⟩

/-- C4: the three sentinel errors are pairwise different, as values and under
Go `==`; a `ContentVerificationError` around any cause `e` differs from each
sentinel, as a value and under Go `==`; and this holds although wrapping a
sentinel yields the very same message string as the sentinel. -/
theorem error_kinds_distinguishable :
    (ErrProposalNotFound ≠ ErrShutdown ∧ ErrProposalNotFound ≠ ErrInvalidTransition ∧
      ErrShutdown ≠ ErrInvalidTransition) ∧
    (ErrProposalNotFound.goEq ErrShutdown = Outcome.returns false ∧
      ErrProposalNotFound.goEq ErrInvalidTransition = Outcome.returns false ∧
      ErrShutdown.goEq ErrInvalidTransition = Outcome.returns false ∧
      ErrShutdown.goEq ErrProposalNotFound = Outcome.returns false ∧
      ErrInvalidTransition.goEq ErrProposalNotFound = Outcome.returns false ∧
      ErrInvalidTransition.goEq ErrShutdown = Outcome.returns false) ∧
    (∀ e : GoError,
      ContentVerificationError.toError { Err := e } ≠ ErrProposalNotFound ∧
      ContentVerificationError.toError { Err := e } ≠ ErrShutdown ∧
      ContentVerificationError.toError { Err := e } ≠ ErrInvalidTransition ∧
      (ContentVerificationError.toError { Err := e }).goEq ErrProposalNotFound =
        Outcome.returns false ∧
      (ContentVerificationError.toError { Err := e }).goEq ErrShutdown =
        Outcome.returns false ∧
      (ContentVerificationError.toError { Err := e }).goEq ErrInvalidTransition =
        Outcome.returns false ∧
      ErrProposalNotFound.goEq (ContentVerificationError.toError { Err := e }) =
        Outcome.returns false ∧
      ErrShutdown.goEq (ContentVerificationError.toError { Err := e }) =
        Outcome.returns false ∧
      ErrInvalidTransition.goEq (ContentVerificationError.toError { Err := e }) =
        Outcome.returns false) ∧
    ((ContentVerificationError.toError { Err := ErrProposalNotFound }).Error =
        ErrProposalNotFound.Error ∧
      (ContentVerificationError.toError { Err := ErrShutdown }).Error = ErrShutdown.Error ∧
      (ContentVerificationError.toError { Err := ErrInvalidTransition }).Error =
        ErrInvalidTransition.Error) := by
  refine ⟨by decide, by decide, ?_, ⟨rfl, rfl, rfl⟩⟩
  intro e
  refine ⟨?_, ?_, ?_, rfl, rfl, rfl, rfl, rfl, rfl⟩ <;> intro h <;> cases h

/-- C9 as stated fails: the value `ContentVerificationError{Err: ContentVerificationError{}}`
has a non-nil `Err`, yet its `Error()` ends in a nil dereference. -/
theorem nested_zero_value_panics :
    ({ Err := ContentVerificationError.toError { Err := GoError.nil } } :
        ContentVerificationError).Err ≠ GoError.nil ∧
    ({ Err := ContentVerificationError.toError { Err := GoError.nil } } :
        ContentVerificationError).Error = Outcome.panics GoPanic.nilDereference := by
  exact ⟨by decide, rfl⟩

/-- C9 amended: `Error()` on a `ContentVerificationError` with nil `Err` fails
with a nil dereference, so a non-nil `Err` is necessary for it to return; with
an `Err` made by `errors.New` it returns that text; for any `Err` it returns a
string exactly when `Err.Error()` returns one, which is exactly when the chain
of `Err` fields ends in an `errors.New` value or in a value of another type
whose own `Error()` returns; when the chain ends in nil it fails with a nil
dereference; and with the nil `*ContentVerificationError` pointer as `Err`,
which is a non-nil interface value, it panics as well. -/
theorem content_verification_error_totality :
    ({ Err := GoError.nil } : ContentVerificationError).Error =
      Outcome.panics GoPanic.nilDereference ∧
    (∀ c : ContentVerificationError, (∃ s, c.Error = Outcome.returns s) → c.Err ≠ GoError.nil) ∧
    (∀ (p : Nat) (s : String),
      ({ Err := GoError.errorString p s } : ContentVerificationError).Error =
        Outcome.returns s) ∧
    (∀ c : ContentVerificationError,
      (∃ s, c.Error = Outcome.returns s) ↔ (∃ s, c.Err.Error = Outcome.returns s)) ∧
    (∀ c : ContentVerificationError,
      (∃ s, c.Error = Outcome.returns s) ↔
        ((∃ p s, c.Err.innermost = GoError.errorString p s) ∨
          (∃ t k v s, c.Err.innermost = GoError.other t k v (Outcome.returns s)))) ∧
    (∀ c : ContentVerificationError,
      c.Err.innermost = GoError.nil → c.Error = Outcome.panics GoPanic.nilDereference) ∧
    (nilContentVerificationErrorPtr ≠ GoError.nil ∧
      ({ Err := nilContentVerificationErrorPtr } : ContentVerificationError).Error =
        Outcome.panics GoPanic.valueMethodNilPointer) := by
  refine ⟨rfl, ?_, fun _ _ => rfl, fun _ => Iff.rfl, fun c => Error_returns_iff c.Err,
    fun c h => Error_of_innermost_nil c.Err h, ⟨by decide, rfl⟩⟩
  rintro ⟨e⟩ ⟨s, hs⟩ hnil
  simp only at hnil
  subst hnil
  cases hs

/-- C9 witness: wrapping `ErrShutdown`, `Error()` returns, and the cause is
not nil. -/
theorem content_verification_error_totality_witness :
    (∃ s, ({ Err := ErrShutdown } : ContentVerificationError).Error = Outcome.returns s) ∧
    ErrShutdown ≠ GoError.nil :=
  ⟨⟨"backend is shutting down", rfl⟩,
    content_verification_error_totality.2.1 { Err := ErrShutdown }
      ⟨"backend is shutting down", rfl⟩⟩

/-! ## Backend operations -/

/-- C5: whenever `New` succeeds, for any collaborators, backend state, name and
file list, the returned record has status `PSRStatusUnvetted` and version 1. -/
theorem New_unvetted_version_one (x : Collaborators) (b : Backend) (name : String)
    (files : List File) (psr : ProposalStorageRecord)
    (h : (Backend.New x b name files).2 = Except.ok psr) :
    psr.Status = PSRStatusUnvetted ∧ psr.Version = 1 := by
  unfold Backend.New at h
  by_cases hs : b.shutdown = true
  · simp [hs] at h
  · cases hv : VerifyContent x files with
    | some cause => simp [hs, hv] at h
    | none =>
      simp only [hs, hv] at h
      have h2 := Except.ok.inj h
      subst h2
      exact ⟨rfl, rfl⟩

/-- C5 witness: `New` on an empty running backend succeeds for the sample file
set and returns the sample record. -/
theorem New_unvetted_version_one_witness :
    (Backend.New sampleCollaborators { store := [], shutdown := false } "a" sampleFiles).2 =
      Except.ok sampleRecord ∧
    (sampleRecord.Status = PSRStatusUnvetted ∧ sampleRecord.Version = 1) :=
  ⟨rfl,
   New_unvetted_version_one sampleCollaborators { store := [], shutdown := false } "a"
     sampleFiles sampleRecord rfl⟩

/-- C2 as stated fails: on a backend that has been closed, the request
unvetted to vetted for an existing unvetted proposal does not succeed, and the
failure is the shutdown error, which is not `ErrInvalidTransition`. -/
theorem SetUnvettedStatus_after_close :
    findRecord [7] sampleBackend.Close.store =
      some { Files := sampleFiles, Record := sampleRecord } ∧
    sampleRecord.Status = PSRStatusUnvetted ∧
    Backend.SetUnvettedStatus sampleBackend.Close [7] PSRStatusVetted =
      (sampleBackend.Close, Except.error ErrShutdown) ∧
    ErrShutdown ≠ ErrInvalidTransition :=
  ⟨by decide, by decide, rfl, by decide⟩

/-- C2 amended: on a backend that has not been closed, for an existing proposal
with current status `s` and any requested status `n`, `SetUnvettedStatus`
succeeds exactly when `s` is unvetted and `n` is vetted or censored; it then
returns `n` and the stored record has status `n` with its other fields kept;
in every other case it fails with `ErrInvalidTransition` and the backend state
is unchanged.  On a backend that has been closed, in particular on the state
that `Close` produces, it fails with `ErrShutdown` for every token and every
requested status, and the backend state is unchanged. -/
theorem SetUnvettedStatus_transitions (b : Backend) (token : List Byte) (n : PSRStatusT) :
    (b.shutdown = true →
      Backend.SetUnvettedStatus b token n = (b, Except.error ErrShutdown)) ∧
    Backend.SetUnvettedStatus b.Close token n = (b.Close, Except.error ErrShutdown) ∧
    (∀ e : Stored, b.shutdown = false → findRecord token b.store = some e →
      ((∃ m, (Backend.SetUnvettedStatus b token n).2 = Except.ok m) ↔
        (e.Record.Status = PSRStatusUnvetted ∧
          (n = PSRStatusVetted ∨ n = PSRStatusCensored))) ∧
      ((e.Record.Status = PSRStatusUnvetted ∧
          (n = PSRStatusVetted ∨ n = PSRStatusCensored)) →
        (Backend.SetUnvettedStatus b token n).2 = Except.ok n ∧
        findRecord token (Backend.SetUnvettedStatus b token n).1.store =
          some { e with Record := { e.Record with Status := n } }) ∧
      (¬ (e.Record.Status = PSRStatusUnvetted ∧
          (n = PSRStatusVetted ∨ n = PSRStatusCensored)) →
        Backend.SetUnvettedStatus b token n = (b, Except.error ErrInvalidTransition))) := by
  refine ⟨?_, ?_, ?_⟩
  · intro hs
    simp [Backend.SetUnvettedStatus, hs]
  · simp [Backend.SetUnvettedStatus, Backend.Close]
  · intro e hrun hfind
    by_cases hc : e.Record.Status = PSRStatusUnvetted ∧
        (n = PSRStatusVetted ∨ n = PSRStatusCensored)
    · have hr : Backend.SetUnvettedStatus b token n =
          ({ b with store := setStatus token n b.store }, Except.ok n) := by
        simp only [Backend.SetUnvettedStatus, hrun, hfind]
        simp [hc]
      refine ⟨⟨fun _ => hc, fun _ => ⟨n, by rw [hr]⟩⟩, fun _ => ⟨by rw [hr], ?_⟩,
        fun hn => absurd hc hn⟩
      rw [hr]
      simp [findRecord_setStatus, hfind]
    · have hr : Backend.SetUnvettedStatus b token n =
          (b, Except.error ErrInvalidTransition) := by
        simp only [Backend.SetUnvettedStatus, hrun, hfind]
        simp [hc]
      refine ⟨⟨?_, fun h => absurd h hc⟩, fun h => absurd h hc, fun _ => hr⟩
      rintro ⟨m, hm⟩
      rw [hr] at hm
      cases hm

/-- C2 witness: on the running sample backend the request unvetted to vetted
for token `[7]` succeeds and the stored record becomes vetted. -/
theorem SetUnvettedStatus_transitions_witness :
    (Backend.SetUnvettedStatus sampleBackend [7] PSRStatusVetted).2 = Except.ok PSRStatusVetted ∧
    findRecord [7] (Backend.SetUnvettedStatus sampleBackend [7] PSRStatusVetted).1.store =
      some { Files := sampleFiles, Record := { sampleRecord with Status := PSRStatusVetted } } :=
  ((SetUnvettedStatus_transitions sampleBackend [7] PSRStatusVetted).2.2
    { Files := sampleFiles, Record := sampleRecord } (by decide) (by decide)).2.1
    ⟨by decide, Or.inl rfl⟩

end backend
